import Mathlib

/-!
Shallow embedding of the igvm command-orchestration layer
(transaction rollback engine, remote-execution session, hypervisor
connection cache and lifecycle commands), with theorems settling the
spec's claims about it.
-/

namespace Igvm

/-! ## Transaction / rollback engine (igvm/transaction.py) -/

/-- A registered compensating action: `on_rollback(name, fn, *args, **kwargs)`
stores the name and the bound callable.  For the embedding the callable is
abstracted by whether invoking it raises an exception (`raises`); the
observable behaviour of `rollback` is the sequence of invocations. -/
structure RollbackAction where
  name : String
  raises : Bool
  deriving Repr, DecidableEq

/-- `Transaction._actions`: `None` outside the scope (`__init__` /
after `__exit__`), a list while the scope is open (`__enter__` sets `[]`). -/
structure Transaction where
  actions : Option (List RollbackAction)
  deriving Repr, DecidableEq

/-- `Transaction.__init__`: `self._actions = None`. -/
def Transaction.init : Transaction := ⟨none⟩

/-- `Transaction.__enter__`: `self._actions = []`. -/
def Transaction.enter (_t : Transaction) : Transaction := ⟨some []⟩

/-- `Transaction.on_rollback(name, fn, *args, **kwargs)`: appends the
(name, bound callable) pair to `_actions`. -/
def Transaction.on_rollback (t : Transaction) (name : String) (raises : Bool) :
    Transaction :=
  ⟨t.actions.map (fun acts => acts ++ [⟨name, raises⟩])⟩

/-- The loop body of `Transaction.rollback`: each action is invoked
(appending its name to the invocation trace); an action that raises is
caught by the `try/except Exception` and only logged, so the loop
continues with the remaining actions either way. -/
def rollbackLoop : List RollbackAction → List String → List String
  | [], trace => trace
  | a :: rest, trace =>
      let invoked := trace ++ [a.name]
      if a.raises then
        -- `except Exception`: log.warning, exception swallowed
        rollbackLoop rest invoked
      else
        rollbackLoop rest invoked

/-- `Transaction.rollback`: invokes the registered actions in
`reversed(self._actions)` order.  Returns the invocation trace. -/
def Transaction.rollback (t : Transaction) : List String :=
  rollbackLoop (t.actions.getD []).reverse []

/-- `Transaction.__exit__(type, value, traceback)`: rolls back iff a
traceback is pending, then invalidates `_actions`; it returns `None`
(falsy), so a pending exception always propagates to the caller.
Result: (invocation trace, transaction after exit, does the pending
failure propagate). -/
def Transaction.exitScope (t : Transaction) (tracebackPresent : Bool) :
    List String × Transaction × Bool :=
  (if tracebackPresent then t.rollback else [], ⟨none⟩, tracebackPresent)

lemma rollbackLoop_trace (l : List RollbackAction) (trace : List String) :
    rollbackLoop l trace = trace ++ l.map RollbackAction.name := by
  induction l generalizing trace with
  | nil => simp [rollbackLoop]
  | cons a rest ih =>
      by_cases h : a.raises = true <;>
        simp [rollbackLoop, h, ih]

lemma foldl_on_rollback (acts l : List RollbackAction) :
    acts.foldl (fun t a => t.on_rollback a.name a.raises)
        (Transaction.mk (some l)) = ⟨some (l ++ acts)⟩ := by
  induction acts generalizing l with
  | nil => simp
  | cons a rest ih =>
      have hstep : (Transaction.mk (some l)).on_rollback a.name a.raises =
          Transaction.mk (some (l ++ [⟨a.name, a.raises⟩])) := rfl
      rw [List.foldl_cons, hstep, ih]
      simp

/-- C1: a Transaction that registered compensators C1..Cn (in that order)
and exits with a pending failure runs exactly Cn..C1 — each compensator
exactly once, in strict LIFO order, regardless of which compensators
raise (a raising compensator is caught and logged and the rest still
run) — and the original triggering failure still propagates to the
caller. -/
theorem transaction_rollback_lifo (acts : List RollbackAction) :
    Transaction.exitScope
        (acts.foldl (fun t a => t.on_rollback a.name a.raises)
          (Transaction.init.enter)) true =
      ((acts.map RollbackAction.name).reverse, ⟨none⟩, true) ∧
    ∀ n : String,
      (Transaction.exitScope
          (acts.foldl (fun t a => t.on_rollback a.name a.raises)
            (Transaction.init.enter)) true).1.count n =
        (acts.map RollbackAction.name).count n := by
  have hreg : acts.foldl (fun t a => t.on_rollback a.name a.raises)
      (Transaction.init.enter) = ⟨some acts⟩ := by
    simpa using foldl_on_rollback acts []
  constructor
  · rw [hreg]
    simp [Transaction.exitScope, Transaction.rollback, rollbackLoop_trace]
  · intro n
    rw [hreg]
    simp [Transaction.exitScope, Transaction.rollback, rollbackLoop_trace]

/-- C5: a Transaction whose scope exits normally (no pending failure)
invokes zero compensators: every registered compensator is discarded
without being run. -/
theorem transaction_normal_exit_runs_nothing (acts : List RollbackAction) :
    Transaction.exitScope
        (acts.foldl (fun t a => t.on_rollback a.name a.raises)
          (Transaction.init.enter)) false = ([], ⟨none⟩, false) := by
  have hreg : acts.foldl (fun t a => t.on_rollback a.name a.raises)
      (Transaction.init.enter) = ⟨some acts⟩ := by
    simpa using foldl_on_rollback acts []
  rw [hreg]
  simp [Transaction.exitScope]

/-! ## Connection cache (utils/virtutils.py) -/

/-- A libvirt management connection.  `id` is the identity of the opened
channel (fresh per `libvirt.open` call); `closed` records whether
`conn.close()` has been called on it. -/
structure Conn where
  id : Nat
  closed : Bool
  deriving Repr, DecidableEq

/-- The module state of `virtutils`: the global `_conns` dict (as an
insertion-ordered association list keyed by `(hypervisor, host)`) together
with the number of `libvirt.open` calls made so far (source of fresh
connection identities). -/
structure ConnCache where
  conns : List ((String × String) × Conn)
  opened : Nat
  deriving Repr, DecidableEq

/-- `get_virtconn(host, hypervisor)`: raises
`ValueError('Only kvm is supported for now')` for any driver other than
`'kvm'` (the spec calls this error class `UnsupportedDriverError`);
otherwise returns `_conns[(hypervisor, host)]`, opening a new connection
and inserting it only when the key is absent.  Returns the result together
with the module state after the call. -/
def get_virtconn (host hypervisor : String) (c : ConnCache) :
    Except String Conn × ConnCache :=
  if hypervisor ≠ "kvm" then
    (.error "Only kvm is supported for now", c)
  else
    let index := (hypervisor, host)
    match c.conns.find? (fun p => decide (p.1 = index)) with
    | some p => (.ok p.2, c)
    | none =>
        let conn : Conn := ⟨c.opened, false⟩
        (.ok conn, ⟨c.conns ++ [(index, conn)], c.opened + 1⟩)

/-- `close_virtconns()`: calls `conn.close()` on every cached connection
(a raised `libvirtError` is swallowed, so every connection is attempted);
the `_conns` dict itself is never modified and no entry is removed. -/
def close_virtconns (c : ConnCache) : ConnCache :=
  ⟨c.conns.map (fun p => (p.1, { p.2 with closed := true })), c.opened⟩

lemma find?_append_of_none {α : Type} (p : α → Bool) (l1 l2 : List α)
    (h : l1.find? p = none) : (l1 ++ l2).find? p = l2.find? p := by
  induction l1 with
  | nil => simp
  | cons a rest ih =>
      rw [List.find?_cons] at h
      cases hpa : p a with
      | true => simp [hpa] at h
      | false =>
          rw [hpa] at h
          simpa [List.find?_cons, hpa] using ih h

lemma find?_map_fst (g : Conn → Conn)
    (l : List ((String × String) × Conn)) (idx : String × String) :
    (l.map (fun p => (p.1, g p.2))).find? (fun p => decide (p.1 = idx)) =
      (l.find? (fun p => decide (p.1 = idx))).map (fun p => (p.1, g p.2)) := by
  induction l with
  | nil => simp
  | cons a rest ih =>
      by_cases ha : a.1 = idx <;> simp [List.find?_cons, ha, ih]

/-- C3: `get_virtconn` called twice with the same `(driver, host)` pair and
the supported driver `'kvm'` returns the identical cached connection and
leaves the module state unchanged on the second call (a management channel
is opened only on the first request, never a duplicate); any driver other
than `'kvm'` always fails with the unsupported-driver `ValueError`,
regardless of host, leaving the cache untouched. -/
theorem get_virtconn_cached (host driver : String) (c : ConnCache) :
    get_virtconn host "kvm" (get_virtconn host "kvm" c).2 =
      get_virtconn host "kvm" c ∧
    (driver ≠ "kvm" →
        get_virtconn host driver c = (.error "Only kvm is supported for now", c)) := by
  constructor
  · unfold get_virtconn
    simp only [ne_eq, not_true_eq_false, ite_false, if_neg, not_false_eq_true]
    rcases hfind : c.conns.find? (fun p => decide (p.1 = ("kvm", host))) with
      _ | p
    · have hnew : ((c.conns ++ [(("kvm", host), (⟨c.opened, false⟩ : Conn))]).find?
          (fun p => decide (p.1 = ("kvm", host)))) =
            some ((("kvm", host), (⟨c.opened, false⟩ : Conn))) := by
        rw [find?_append_of_none _ _ _ hfind]
        simp
      simp [hfind, hnew]
    · simp [hfind]
  · intro hdrv
    unfold get_virtconn
    simp [hdrv]

/-- C9: `close_virtconns` removes nothing from the `_conns` cache: for any
`(kvm, host)` entry present before the close, a later `get_virtconn` for
the same pair returns that same connection object (same identity), now
closed, straight from the cache — the state is unchanged and no fresh
management channel is opened. -/
theorem close_virtconns_keeps_cache (c : ConnCache) (host : String)
    (e : (String × String) × Conn)
    (h : c.conns.find? (fun p => decide (p.1 = ("kvm", host))) = some e) :
    get_virtconn host "kvm" (close_virtconns c) =
      (.ok { e.2 with closed := true }, close_virtconns c) ∧
    (close_virtconns c).opened = c.opened := by
  constructor
  · unfold get_virtconn close_virtconns
    simp only [ne_eq, not_true_eq_false, ite_false, if_neg, not_false_eq_true]
    have hm := find?_map_fst (fun x => { x with closed := true })
      c.conns ("kvm", host)
    rw [hm, h]
    simp
  · rfl

/-! ## Remote execution session (igvm/host.py) -/

/-- The outcome the transport reports for one execution attempt of a
command: either a socket-level disconnect (`transport.socket.error`), or
the command completed with an exit code and captured output. -/
inductive Attempt
  | disconnect
  | completed (exitCode : Nat) (output : String)
  deriving Repr, DecidableEq

/-- The two failure modes of `Host.run`: the fabric abort exception raised
on a non-zero exit (`abort_exception = RemoteCommandError`), and the
socket error escaping after the single retry. -/
inductive RunError
  | remoteCommandError
  | socketError
  deriving Repr, DecidableEq

/-- Modelled from the spec: igvm/exceptions.py is not under src/.  The
spec's error taxonomy names the class covering "remote command failed or
transport retry exhausted" `RemoteExecutionError`; both failure modes of
`Host.run` fall in it. -/
def RemoteExecutionError : RunError → Bool
  | .remoteCommandError => true
  | .socketError => true

/-- `fabric.state.connections` restricted to what `Host.run` observes:
cached connections keyed by host string, with whether the cached
transport is still open. -/
abbrev FabricConns := List (String × Bool)

/-- The `except transport.socket.error` handler's cache cleanup:
`if host and host in fabric.state.connections:
connections[host].get_transport().close()` — closes the cached transport
for this host (the dict entry itself is not removed). -/
def closeCachedTransport (host : String) (conns : FabricConns) : FabricConns :=
  if host ≠ "" ∧ conns.any (fun p => decide (p.1 = host)) = true then
    conns.map (fun p => if p.1 = host then (p.1, false) else p)
  else
    conns

/-- What one completed `fabric.api.sudo`/`run` call yields under the
session's settings: with `warn_only` a non-zero exit is tolerated and the
output returned; without it fabric aborts, raising the session's
`abort_exception` (`RemoteCommandError`). -/
def interpCompleted (warnOnly : Bool) (exitCode : Nat) (output : String) :
    Except RunError String :=
  if exitCode = 0 || warnOnly then .ok output
  else .error .remoteCommandError

/-- The result of a successful `Host.run`: the captured output, the fabric
connection cache after the call, and how many execution attempts were
made for the command. -/
structure RunResult where
  output : String
  conns : FabricConns
  attempts : Nat
  deriving Repr, DecidableEq

namespace Host

/-- `Host.run(*args, **kwargs)`: runs the command once; only a
`transport.socket.error` (socket-level disconnect, `a1 = .disconnect`) is
caught, upon which the cached transport for the host is closed and the
same command retried exactly once (`a2`); a second disconnect propagates.
A completed command is interpreted by fabric (`interpCompleted`) and never
retried. -/
def run (warnOnly : Bool) (host : String) (conns : FabricConns)
    (a1 a2 : Attempt) : Except RunError RunResult :=
  match a1 with
  | .completed code out =>
      match interpCompleted warnOnly code out with
      | .ok o => .ok ⟨o, conns, 1⟩
      | .error e => .error e
  | .disconnect =>
      let conns2 := closeCachedTransport host conns
      match a2 with
      | .completed code out =>
          match interpCompleted warnOnly code out with
          | .ok o => .ok ⟨o, conns2, 2⟩
          | .error e => .error e
      | .disconnect => .error .socketError

/-- A remote operation performed by a file-transfer helper. -/
inductive RemoteOp
  | get (path : String)
  deriving Repr, DecidableEq

/-- `Host.read_file(path)`: raises `ValueError('No globbing supported')`
when the path contains a `*`; otherwise fetches the remote file into a
buffer and returns its full contents.  `fs` gives each remote path's
contents; the first component lists the remote transfers performed. -/
def read_file (fs : String → String) (path : String) :
    List RemoteOp × Except String String :=
  if path.data.contains '*' then
    ([], .error "No globbing supported")
  else
    ([.get path], .ok (fs path))

end Host

lemma map_fst_if_close (host : String) (l : FabricConns) :
    (l.map (fun p => if p.1 = host then (p.1, false) else p)).map Prod.fst =
      l.map Prod.fst := by
  induction l with
  | nil => rfl
  | cons p rest ih =>
      by_cases hp : p.1 = host <;> simp only [List.map_cons, if_pos, if_neg,
        hp, ite_true, ite_false, ih]

lemma closeCachedTransport_keys (host : String) (conns : FabricConns) :
    (closeCachedTransport host conns).map Prod.fst = conns.map Prod.fst := by
  unfold closeCachedTransport
  split
  · exact map_fst_if_close host conns
  · rfl

lemma closeCachedTransport_closed (host : String) (conns : FabricConns)
    (hh : host ≠ "") :
    ∀ p ∈ closeCachedTransport host conns, p.1 = host → p.2 = false := by
  unfold closeCachedTransport
  by_cases hc : conns.any (fun p => decide (p.1 = host)) = true
  · rw [if_pos ⟨hh, hc⟩]
    intro p hp hphost
    obtain ⟨q, hq, hqeq⟩ := List.mem_map.mp hp
    by_cases hq1 : q.1 = host
    · rw [if_pos hq1] at hqeq
      rw [← hqeq]
    · rw [if_neg hq1] at hqeq
      subst hqeq
      exact absurd hphost hq1
  · rw [if_neg (fun hand => hc hand.2)]
    intro p hp hphost
    exfalso
    apply hc
    rw [List.any_eq_true]
    exact ⟨p, hp, by simp [hphost]⟩

/-- C2: `Host.run` on a socket-level disconnect closes the cached
transport for the host and retries the same command exactly once (a
successful retry succeeds with two attempts, the cache's keys intact and
this host's cached transport closed); a second consecutive disconnect
propagates, as an error in the spec's `RemoteExecutionError` class; a
command that merely exits non-zero is never retried — the result does not
depend on what a retry would have yielded, it is the fabric abort when
non-zero exits are fatal and a single-attempt result when tolerated. -/
theorem host_run_retry_policy (w : Bool) (host : String) (conns : FabricConns)
    (out : String) (hh : host ≠ "") :
    (∃ conns2, Host.run w host conns .disconnect (.completed 0 out) =
        .ok ⟨out, conns2, 2⟩ ∧
      conns2.map Prod.fst = conns.map Prod.fst ∧
      ∀ p ∈ conns2, p.1 = host → p.2 = false) ∧
    (Host.run w host conns .disconnect .disconnect = .error .socketError ∧
      RemoteExecutionError .socketError = true) ∧
    (∀ (k : Nat) (o : String) (a2 a2' : Attempt),
        Host.run w host conns (.completed (k + 1) o) a2 =
          Host.run w host conns (.completed (k + 1) o) a2') ∧
    (∀ (k : Nat) (o : String) (a2 : Attempt),
        Host.run false host conns (.completed (k + 1) o) a2 =
          .error .remoteCommandError ∧
        Host.run true host conns (.completed (k + 1) o) a2 =
          .ok ⟨o, conns, 1⟩) := by
  refine ⟨⟨closeCachedTransport host conns, ?_, ?_, ?_⟩, ⟨rfl, rfl⟩, ?_, ?_⟩
  · simp [Host.run, interpCompleted]
  · exact closeCachedTransport_keys host conns
  · exact closeCachedTransport_closed host conns hh
  · intro k o a2 a2'
    rfl
  · intro k o a2
    exact ⟨by simp [Host.run, interpCompleted], by simp [Host.run, interpCompleted]⟩

/-- C8: `Host.read_file` rejects every path containing the glob wildcard
character `*` with the validation error `ValueError('No globbing
supported')`, performing no remote transfer; for every wildcard-free path
it performs the transfer and returns the full remote file contents. -/
theorem read_file_wildcard (fs : String → String) (path : String) :
    (path.data.contains '*' = true →
        Host.read_file fs path = ([], .error "No globbing supported")) ∧
    (path.data.contains '*' = false →
        Host.read_file fs path = ([.get path], .ok (fs path))) := by
  constructor
  · intro h
    unfold Host.read_file
    rw [if_pos h]
  · intro h
    unfold Host.read_file
    rw [if_neg (fun hc => by rw [h] at hc; exact Bool.noConfusion hc)]

/-! ## VM lifecycle commands (igvm/commands.py over igvm/host.py) -/

/-- A durable-state mutation (hypervisor call or inventory write)
performed while a command runs. -/
inductive Event
  | startVm
  | stopVmGraceful
  | stopVmForce
  | deleteVm
  | redefineVm
  | buildVm
  | setNumCpu (n : Int)
  | setMemory (n : Int)
  | setDiskSizeGib (n : Int)
  | renameVm (new : String)
  | commit
  | deleteRecord
  | queryInfo
  deriving Repr, DecidableEq

/-- The command-level error taxonomy raised by commands.py: the
`InvalidStateError` precondition failures, the no-op `Warning`
("requested value already matches"), `NotImplementedError` from rename,
and `ValueError` from validation. -/
inductive IgvmError
  | invalidState (msg : String)
  | warning (msg : String)
  | notImplemented (msg : String)
  deriving Repr, DecidableEq

/-- The VM as the commands observe it: its serveradmin dataset attributes
(hostname, lifecycle state tag, resource spec), its assigned hypervisor
(by name, when any), and the hypervisor-derived facts
`hypervisor.vm_defined(vm)` and `vm.is_running()`.  `hvSyncAttrs` is
modelled from the spec: the attribute map `vm_sync_from_hypervisor`
(igvm/vm.py is not under src/) reports as the actual allocation. -/
structure VM where
  hostname : String
  state : String
  hypervisor : Option String
  definedOnHv : Bool
  running : Bool
  numCpu : Int
  memory : Int
  diskSizeGib : Int
  hvSyncAttrs : List (String × Int)
  deriving Repr, DecidableEq

/-- `Host.fqdn` computation (host.py): append `.ig.local` unless the
hostname already ends with it. -/
def VM.fqdn (vm : VM) : String :=
  if (".ig.local".data).isSuffixOf vm.hostname.data then vm.hostname
  else vm.hostname ++ ".ig.local"

/-- `Host.__init__(name_or_obj, ignore_reserved)` as it applies to VM
construction: the serveradmin lookup is abstracted (the given record is
the dataset object); a server whose state is `online_reserved` raises
`InvalidStateError` unless `ignore_reserved` is set. -/
def VM.construct (vm : VM) (ignoreReserved : Bool) : Except IgvmError VM :=
  if ¬ignoreReserved ∧ vm.state = "online_reserved" then
    .error (.invalidState ("Server \"" ++ vm.fqdn ++ "\" is online_reserved."))
  else
    .ok vm

/-- `_check_defined(vm, fail_hard)` (commands.py): an unassigned or
undefined VM either raises `InvalidStateError` (fail_hard) or is only
logged. -/
def check_defined (vm : VM) (failHard : Bool) : Except IgvmError Unit :=
  let error? : Option String :=
    if vm.hypervisor.isNone then
      some ("\"" ++ vm.fqdn ++
        "\" has no hypervisor defined. Use --force to ignore this")
    else if ¬vm.definedOnHv then
      some ("\"" ++ vm.fqdn ++ "\" is not built yet or is not running on \"" ++
        vm.hypervisor.getD "" ++ "\"")
    else
      none
  match error? with
  | some e => if failHard then .error (.invalidState e) else .ok ()
  | none => .ok ()

/-- Modelled from the spec: `VM.shutdown` (igvm/vm.py is not under src/)
gracefully stops the VM via the hypervisor (`stopVmGraceful`). -/
def VM.shutdown (vm : VM) : List Event × VM :=
  ([.stopVmGraceful], { vm with running := false })

/-- Modelled from the spec: `VM.start` powers the VM on (`startVm`). -/
def VM.start (vm : VM) : List Event × VM :=
  ([.startVm], { vm with running := true })

/-- Modelled from the spec: `VM.set_num_cpu` applies the new vcpu count
via the hypervisor and commits it to the inventory. -/
def VM.set_num_cpu (vm : VM) (n : Int) : List Event × VM :=
  ([.setNumCpu n, .commit], { vm with numCpu := n })

/-- Modelled from the spec: `VM.set_memory` applies the new memory size
via the hypervisor and commits it to the inventory (scenario A's "new
memory committed"). -/
def VM.set_memory (vm : VM) (n : Int) : List Event × VM :=
  ([.setMemory n, .commit], { vm with memory := n })

/-- Modelled from the spec: `hypervisor.stop_vm_force(vm)` force-stops
the domain. -/
def VM.stop_vm_force (vm : VM) : List Event × VM :=
  ([.stopVmForce], { vm with running := false })

/-- Modelled from the spec: `hypervisor.delete_vm(vm)` deletes the
domain. -/
def VM.delete_vm (vm : VM) : List Event × VM :=
  ([.deleteVm], { vm with definedOnHv := false, running := false })

/-- Modelled from the spec: `hypervisor.redefine_vm(vm)` redefines the
domain with the latest hypervisor settings. -/
def VM.redefine_vm (vm : VM) : List Event × VM :=
  ([.redefineVm], vm)

/-- Modelled from the spec: `VM.build` delegates to the external
provisioning pipeline, leaving the domain defined and running. -/
def VM.build (vm : VM) : List Event × VM :=
  ([.buildVm], { vm with definedOnHv := true, running := true })

/-- Modelled from the spec: `VM.rename` redefines the VM under the new
name. -/
def VM.rename (vm : VM) (new : String) : List Event × VM :=
  ([.renameVm new], { vm with hostname := new })

/-- Modelled from the spec: `hypervisor.vm_set_disk_size_gib` has the
hypervisor resize the backing store (the inventory commit is done by
`disk_set` itself in commands.py). -/
def VM.vm_set_disk_size_gib (vm : VM) (n : Int) : List Event × VM :=
  ([.setDiskSizeGib n], vm)

/-- The digits of a decimal numeral, as a number. -/
def parseDigits (l : List Char) : Option Nat :=
  match l with
  | [] => none
  | _ => l.foldl
      (fun acc c => match acc with
        | none => none
        | some n => if c.isDigit then some (n * 10 + (c.toNat - 48)) else none)
      (some 0)

/-- Modelled from the spec: `parse_size` (igvm/utils/units.py is not under
src/) parses a size string with an optional unit suffix into the
operation's default unit; for the plain decimal numerals the claims
exercise it is the decimal value (a non-numeric string, out of the
claims' scope, maps to 0). -/
def parse_size (s : String) (_unit : Char) : Int :=
  ((parseDigits s.data).getD 0 : Nat)

/-- `size.startswith(c)` for a one-character prefix: tests the first
character of the string. -/
def strStarts (s : String) (c : Char) : Bool :=
  match s.data with
  | [] => false
  | c0 :: _ => c0 == c

/-- `size[1:]`. -/
def strTail (s : String) : String := ⟨s.data.tail⟩

/-- The size-resolution block `mem_set` and `disk_set` share: a
`+`-prefixed argument resolves to current plus the parsed remainder, a
`-`-prefixed one to current minus it, anything else is an absolute
size. -/
def resolve_size (current : Int) (size : String) (unit : Char) : Int :=
  if strStarts size '+' then current + parse_size (strTail size) unit
  else if strStarts size '-' then current - parse_size (strTail size) unit
  else parse_size size unit

/-- `vcpu_set(vm_hostname, count, offline, ignore_reserved)`.  The result
pairs the durable mutations performed with the final VM or the raised
error. -/
def vcpu_set (vm0 : VM) (count : Int) (offline : Bool) (ignoreReserved : Bool) :
    List Event × Except IgvmError VM :=
  match VM.construct vm0 ignoreReserved with
  | .error e => ([], .error e)
  | .ok vm =>
    match check_defined vm true with
    | .error e => ([], .error e)
    | .ok _ =>
      -- '"..." is already powered off, ignoring --offline.'
      let offline2 := offline && vm.running
      if count = vm.numCpu then
        ([], .error (.warning "CPU count is the same."))
      else
        let (ev1, vm1) := if offline2 then vm.shutdown else ([], vm)
        let (ev2, vm2) := vm1.set_num_cpu count
        let (ev3, vm3) := if offline2 then vm2.start else ([], vm2)
        (ev1 ++ ev2 ++ ev3, .ok vm3)

/-- `mem_set(vm_hostname, size, offline, ignore_reserved)`: resolves the
absolute/relative size, raises the no-op `Warning` when it equals the
current memory, otherwise applies it (shutting down and restarting
around the change only when offline was requested and the VM runs). -/
def mem_set (vm0 : VM) (size : String) (offline : Bool) (ignoreReserved : Bool) :
    List Event × Except IgvmError VM :=
  match VM.construct vm0 ignoreReserved with
  | .error e => ([], .error e)
  | .ok vm =>
    match check_defined vm true with
    | .error e => ([], .error e)
    | .ok _ =>
      let new_memory := resolve_size vm.memory size 'm'
      if new_memory = vm.memory then
        ([], .error (.warning "Memory size is the same."))
      else
        let offline2 := offline && vm.running
        let (ev1, vm1) := if offline2 then vm.shutdown else ([], vm)
        let (ev2, vm2) := vm1.set_memory new_memory
        let (ev3, vm3) := if offline2 then vm2.start else ([], vm2)
        (ev1 ++ ev2 ++ ev3, .ok vm3)

/-- `disk_set(vm_hostname, size, ignore_reserved)`: resolves the size,
raises the no-op `Warning` when unchanged, otherwise has the hypervisor
resize the backing store and commits the new size to the inventory. -/
def disk_set (vm0 : VM) (size : String) (ignoreReserved : Bool) :
    List Event × Except IgvmError VM :=
  match VM.construct vm0 ignoreReserved with
  | .error e => ([], .error e)
  | .ok vm =>
    match check_defined vm true with
    | .error e => ([], .error e)
    | .ok _ =>
      let new_size := resolve_size vm.diskSizeGib size 'g'
      if new_size = vm.diskSizeGib then
        ([], .error (.warning "Disk size is the same."))
      else
        let (ev1, vm1) := vm.vm_set_disk_size_gib new_size
        (ev1 ++ [.commit], .ok { vm1 with diskSizeGib := new_size })

/-- `vm_start(vm_hostname)`: constructs the VM with the default
`ignore_reserved=False` (no override flag exists), then powers it on
unless already running. -/
def vm_start (vm0 : VM) : List Event × Except IgvmError VM :=
  match VM.construct vm0 false with
  | .error e => ([], .error e)
  | .ok vm =>
    match check_defined vm true with
    | .error e => ([], .error e)
    | .ok _ =>
      if vm.running then ([], .ok vm)   -- '"..." is already running.'
      else
        let (ev, vm1) := vm.start
        (ev, .ok vm1)

/-- `vm_stop(vm_hostname, force)`: constructs the VM with the default
`ignore_reserved=False` (no override flag exists), then force-stops or
gracefully shuts down unless already stopped. -/
def vm_stop (vm0 : VM) (force : Bool) : List Event × Except IgvmError VM :=
  match VM.construct vm0 false with
  | .error e => ([], .error e)
  | .ok vm =>
    match check_defined vm true with
    | .error e => ([], .error e)
    | .ok _ =>
      if ¬vm.running then ([], .ok vm)  -- '"..." is already stopped.'
      else if force then
        let (ev, vm1) := vm.stop_vm_force
        (ev, .ok vm1)
      else
        let (ev, vm1) := vm.shutdown
        (ev, .ok vm1)

/-- `vm_restart(vm_hostname, force, no_redefine)`: constructed with
`ignore_reserved=True`; requires a running VM; stops it, optionally
redefines the domain, and starts it again. -/
def vm_restart (vm0 : VM) (force : Bool) (noRedefine : Bool) :
    List Event × Except IgvmError VM :=
  match VM.construct vm0 true with
  | .error e => ([], .error e)
  | .ok vm =>
    match check_defined vm true with
    | .error e => ([], .error e)
    | .ok _ =>
      if ¬vm.running then
        ([], .error (.invalidState ("\"" ++ vm.fqdn ++ "\" is not running")))
      else
        let (ev1, vm1) := if force then vm.stop_vm_force else vm.shutdown
        let (ev2, vm2) := if ¬noRedefine then vm1.redefine_vm else ([], vm1)
        let (ev3, vm3) := vm2.start
        (ev1 ++ ev2 ++ ev3, .ok vm3)

/-- `vm_rebuild(vm_hostname, force)`: constructed with
`ignore_reserved=True`; a running VM is force-stopped when forced and
rejected otherwise; then the domain is deleted and rebuilt. -/
def vm_rebuild (vm0 : VM) (force : Bool) : List Event × Except IgvmError VM :=
  match VM.construct vm0 true with
  | .error e => ([], .error e)
  | .ok vm =>
    match check_defined vm true with
    | .error e => ([], .error e)
    | .ok _ =>
      if vm.running then
        if force then
          let (ev1, vm1) := vm.stop_vm_force
          let (ev2, vm2) := vm1.delete_vm
          let (ev3, vm3) := vm2.build
          (ev1 ++ ev2 ++ ev3, .ok vm3)
        else
          ([], .error (.invalidState ("\"" ++ vm.fqdn ++ "\" is still running.")))
      else
        let (ev2, vm2) := vm.delete_vm
        let (ev3, vm3) := vm2.build
        (ev2 ++ ev3, .ok vm3)

/-- `vm_delete(vm_hostname, force, retire)`: constructed with
`ignore_reserved=True`; `_check_defined` fails hard only when not forced;
a running defined VM is force-stopped when forced and rejected otherwise;
the domain is deleted if present; the serveradmin record is either
retired or deleted, and committed. -/
def vm_delete (vm0 : VM) (force retire : Bool) :
    List Event × Except IgvmError VM :=
  match VM.construct vm0 true with
  | .error e => ([], .error e)
  | .ok vm =>
    match check_defined vm (!force) with
    | .error e => ([], .error e)
    | .ok _ =>
      let running := vm.hypervisor.isSome && vm.definedOnHv && vm.running
      if running && !force then
        ([], .error (.invalidState ("\"" ++ vm.fqdn ++ "\" is still running.")))
      else
        let (ev1, vm1) := if running then vm.stop_vm_force else ([], vm)
        let (ev2, vm2) :=
          if vm1.hypervisor.isSome && vm1.definedOnHv then vm1.delete_vm
          else ([], vm1)
        if retire then
          (ev1 ++ ev2 ++ [.commit], .ok { vm2 with state := "retired" })
        else
          (ev1 ++ ev2 ++ [.deleteRecord, .commit], .ok vm2)

/-- The serveradmin attributes `vm_sync` reconciles, read by name. -/
def VM.datasetGet (vm : VM) (a : String) : Int :=
  if a = "num_cpu" then vm.numCpu
  else if a = "memory" then vm.memory
  else if a = "disk_size_gib" then vm.diskSizeGib
  else 0

/-- Write-back of one reconciled attribute. -/
def VM.datasetSet (vm : VM) (a : String) (v : Int) : VM :=
  if a = "num_cpu" then { vm with numCpu := v }
  else if a = "memory" then { vm with memory := v }
  else if a = "disk_size_gib" then { vm with diskSizeGib := v }
  else vm

/-- The attribute loop of `vm_sync`: diff each reported attribute against
the inventory, writing back only changed ones. -/
def syncLoop : List (String × Int) → VM → List String → VM × List String
  | [], vm, changed => (vm, changed)
  | (a, v) :: rest, vm, changed =>
      if vm.datasetGet a = v then syncLoop rest vm changed
      else syncLoop rest (vm.datasetSet a v) (changed ++ [a])

/-- `vm_sync(vm_hostname)`: constructed with `ignore_reserved=True`;
commits only when some attribute changed, otherwise reports "already
synchronized". -/
def vm_sync (vm0 : VM) : List Event × Except IgvmError VM :=
  match VM.construct vm0 true with
  | .error e => ([], .error e)
  | .ok vm =>
    match check_defined vm true with
    | .error e => ([], .error e)
    | .ok _ =>
      let (vm2, changed) := syncLoop vm.hvSyncAttrs vm []
      if changed.isEmpty then ([], .ok vm)
      else ([.commit], .ok vm2)

/-- `host_info(vm_hostname)`: constructed with `ignore_reserved=True`;
`VM.info` is modelled from the spec as a pure query (report formatting is
out of the core's scope). -/
def host_info (vm0 : VM) : List Event × Except IgvmError VM :=
  match VM.construct vm0 true with
  | .error e => ([], .error e)
  | .ok vm => ([.queryInfo], .ok vm)

/-- `vm_rename(vm_hostname, new_hostname, offline)`: constructed with
`ignore_reserved=True`; raises `NotImplementedError` unless `offline` is
set, then again unless the VM is running; only then redefines the VM
under the new name. -/
def vm_rename (vm0 : VM) (newHostname : String) (offline : Bool) :
    List Event × Except IgvmError VM :=
  match VM.construct vm0 true with
  | .error e => ([], .error e)
  | .ok vm =>
    match check_defined vm true with
    | .error e => ([], .error e)
    | .ok _ =>
      if ¬offline then
        ([], .error (.notImplemented
          "Rename command only works with --offline at the moment."))
      else if ¬vm.running then
        ([], .error (.notImplemented
          "Rename command only works online at the moment."))
      else
        let (ev, vm1) := vm.rename newHostname
        (ev, .ok vm1)

lemma construct_ok (vm : VM) (ir : Bool)
    (h : ir = true ∨ vm.state ≠ "online_reserved") :
    VM.construct vm ir = .ok vm := by
  unfold VM.construct
  rcases h with h | h
  · subst h
    simp
  · simp [h]

lemma construct_reserved (vm : VM) (hstate : vm.state = "online_reserved") :
    VM.construct vm false =
      .error (.invalidState
        ("Server \"" ++ vm.fqdn ++ "\" is online_reserved.")) := by
  unfold VM.construct
  simp [hstate]

lemma check_defined_ok (vm : VM) (fh : Bool) (hhv : vm.hypervisor.isSome)
    (hdef : vm.definedOnHv = true) : check_defined vm fh = .ok () := by
  obtain ⟨hv, hhv⟩ := Option.isSome_iff_exists.mp hhv
  unfold check_defined
  simp [hhv, hdef]

/-- C4: on a constructible, defined VM, `vcpu_set` with the current CPU
count, `mem_set` with a size resolving to the current memory and
`disk_set` with a size resolving to the current disk size all raise the
no-op `Warning` with no state change at all: no shutdown, no hypervisor
setting changed, no inventory commit (the mutation trace is empty). -/
theorem noop_same_value_warning (vm : VM) (offline ir : Bool)
    (hres : ir = true ∨ vm.state ≠ "online_reserved")
    (hhv : vm.hypervisor.isSome) (hdef : vm.definedOnHv = true) :
    vcpu_set vm vm.numCpu offline ir =
      ([], .error (.warning "CPU count is the same.")) ∧
    (∀ size, resolve_size vm.memory size 'm' = vm.memory →
        mem_set vm size offline ir =
          ([], .error (.warning "Memory size is the same."))) ∧
    (∀ size, resolve_size vm.diskSizeGib size 'g' = vm.diskSizeGib →
        disk_set vm size ir =
          ([], .error (.warning "Disk size is the same."))) := by
  refine ⟨?_, ?_, ?_⟩
  · unfold vcpu_set
    rw [construct_ok vm ir hres]
    dsimp only
    rw [check_defined_ok vm true hhv hdef]
    simp
  · intro size hsz
    unfold mem_set
    rw [construct_ok vm ir hres]
    dsimp only
    rw [check_defined_ok vm true hhv hdef]
    simp [hsz]
  · intro size hsz
    unfold disk_set
    rw [construct_ok vm ir hres]
    dsimp only
    rw [check_defined_ok vm true hhv hdef]
    simp [hsz]

/-- C6: `mem_set` resolves a `+`-prefixed size to current memory plus the
parsed remainder, a `-`-prefixed size to current minus it, and an
unprefixed size as an absolute value; with offline not requested it never
shuts down, force-stops or restarts the VM; and concretely,
`mem_set(vm, "+512")` at 2048 MiB commits 2560 MiB with the VM left
running. -/
theorem mem_set_size_resolution (current : Int) (size : String) (u : Char) :
    (strStarts size '+' = true →
        resolve_size current size u = current + parse_size (strTail size) u) ∧
    (strStarts size '+' = false → strStarts size '-' = true →
        resolve_size current size u = current - parse_size (strTail size) u) ∧
    (strStarts size '+' = false → strStarts size '-' = false →
        resolve_size current size u = parse_size size u) ∧
    (∀ (vm : VM) (sz : String) (ir : Bool),
        (ir = true ∨ vm.state ≠ "online_reserved") →
        vm.hypervisor.isSome → vm.definedOnHv = true →
        Event.stopVmGraceful ∉ (mem_set vm sz false ir).1 ∧
        Event.stopVmForce ∉ (mem_set vm sz false ir).1 ∧
        Event.startVm ∉ (mem_set vm sz false ir).1) ∧
    (mem_set ⟨"vm1", "online", some "hv1", true, true, 2, 2048, 16, []⟩
        "+512" false false =
      ([.setMemory 2560, .commit],
        .ok ⟨"vm1", "online", some "hv1", true, true, 2, 2560, 16, []⟩)) := by
  refine ⟨?_, ?_, ?_, ?_, ?_⟩
  · intro h
    unfold resolve_size
    rw [if_pos h]
  · intro hplus hminus
    unfold resolve_size
    rw [if_neg (by simp [hplus]), if_pos hminus]
  · intro hplus hminus
    unfold resolve_size
    rw [if_neg (by simp [hplus]), if_neg (by simp [hminus])]
  · intro vm sz ir hres hhv hdef
    unfold mem_set
    rw [construct_ok vm ir hres]
    dsimp only
    rw [check_defined_ok vm true hhv hdef]
    by_cases hsz : resolve_size vm.memory sz 'm' = vm.memory
    · simp [hsz]
    · simp [hsz, VM.set_memory]
  · rfl

/-- C7: `vm_rename` on a defined VM raises `NotImplementedError` whenever
`offline` is false, raises `NotImplementedError` whenever the VM is not
running, and redefines the VM under the new name exactly when
`offline = true` and the VM is running. -/
theorem vm_rename_offline_running (vm : VM) (new : String)
    (hhv : vm.hypervisor.isSome) (hdef : vm.definedOnHv = true) :
    (vm_rename vm new false =
      ([], .error (.notImplemented
        "Rename command only works with --offline at the moment."))) ∧
    (vm.running = false → ∀ off, ∃ msg,
        vm_rename vm new off = ([], .error (.notImplemented msg))) ∧
    (vm.running = true →
        vm_rename vm new true =
          ([.renameVm new], .ok { vm with hostname := new })) := by
  refine ⟨?_, ?_, ?_⟩
  · unfold vm_rename
    rw [construct_ok vm true (Or.inl rfl)]
    dsimp only
    rw [check_defined_ok vm true hhv hdef]
    simp
  · intro hrun off
    unfold vm_rename
    rw [construct_ok vm true (Or.inl rfl)]
    dsimp only
    rw [check_defined_ok vm true hhv hdef]
    cases off with
    | false =>
        exact ⟨"Rename command only works with --offline at the moment.",
          by simp⟩
    | true =>
        exact ⟨"Rename command only works online at the moment.",
          by simp [hrun]⟩
  · intro hrun
    unfold vm_rename
    rw [construct_ok vm true (Or.inl rfl)]
    dsimp only
    rw [check_defined_ok vm true hhv hdef]
    simp [hrun, VM.rename]

/-- C10: a VM whose inventory state is `online_reserved` makes `vm_start`
and `vm_stop` raise `InvalidStateError` at VM construction, before any
hypervisor or remote mutation (empty trace) — neither takes an
override flag — while `vm_restart`, `vm_rebuild`, `vm_delete`, `vm_sync`,
`vm_rename` and `host_info`, which construct the VM with
`ignore_reserved=True`, all get past the reserved-state protection and
complete on the same reserved VM. -/
theorem reserved_state_protection (vm : VM) (new : String)
    (hstate : vm.state = "online_reserved")
    (hhv : vm.hypervisor.isSome) (hdef : vm.definedOnHv = true)
    (hrun : vm.running = true) :
    vm_start vm =
      ([], .error (.invalidState
        ("Server \"" ++ vm.fqdn ++ "\" is online_reserved."))) ∧
    (∀ force, vm_stop vm force =
      ([], .error (.invalidState
        ("Server \"" ++ vm.fqdn ++ "\" is online_reserved.")))) ∧
    (∃ r, (vm_restart vm false false).2 = .ok r) ∧
    (∃ r, (vm_rebuild vm true).2 = .ok r) ∧
    (∃ r, (vm_delete vm true true).2 = .ok r) ∧
    (∃ r, (vm_sync vm).2 = .ok r) ∧
    (∃ r, (vm_rename vm new true).2 = .ok r) ∧
    (∃ r, (host_info vm).2 = .ok r) := by
  have hc := construct_ok vm true (Or.inl rfl)
  have hcd := check_defined_ok vm true hhv hdef
  refine ⟨?_, ?_, ?_, ?_, ?_, ?_, ?_, ?_⟩
  · unfold vm_start
    rw [construct_reserved vm hstate]
  · intro force
    unfold vm_stop
    rw [construct_reserved vm hstate]
  · unfold vm_restart
    rw [hc]
    dsimp only
    rw [hcd]
    simp [hrun]
  · unfold vm_rebuild
    rw [hc]
    dsimp only
    rw [hcd]
    simp [hrun, VM.stop_vm_force, VM.delete_vm, VM.build]
  · unfold vm_delete
    rw [hc]
    dsimp only
    simp only [Bool.not_true]
    rw [check_defined_ok vm false hhv hdef]
    obtain ⟨hv, hhv2⟩ := Option.isSome_iff_exists.mp hhv
    simp [hhv2, hdef, hrun, VM.stop_vm_force, VM.delete_vm]
  · unfold vm_sync
    rw [hc]
    dsimp only
    rw [hcd]
    dsimp only
    split
    · exact ⟨_, rfl⟩
    · exact ⟨_, rfl⟩
  · unfold vm_rename
    rw [hc]
    dsimp only
    rw [hcd]
    simp [hrun, VM.rename]
  · unfold host_info
    rw [hc]
    exact ⟨_, rfl⟩

/-! ## Concrete witnesses -/

theorem host_run_retry_policy_witness :
    ("h1" : String) ≠ "" ∧
    Host.run false "h1" [("h1", true)] .disconnect .disconnect =
      .error .socketError ∧
    Host.run false "h1" [("h1", true)] (.completed 1 "o") .disconnect =
      .error .remoteCommandError :=
  ⟨by decide,
    (host_run_retry_policy false "h1" [("h1", true)] "o" (by decide)).2.1.1,
    ((host_run_retry_policy false "h1" [("h1", true)] "o"
      (by decide)).2.2.2 0 "o" .disconnect).1⟩

theorem get_virtconn_cached_witness :
    ("xen" : String) ≠ "kvm" ∧
    get_virtconn "h1" "xen" ⟨[], 0⟩ =
      (.error "Only kvm is supported for now", ⟨[], 0⟩) :=
  ⟨by decide, (get_virtconn_cached "h1" "xen" ⟨[], 0⟩).2 (by decide)⟩

theorem noop_same_value_warning_witness :
    (⟨"vm1", "online", some "hv1", true, true, 2, 2048, 16, []⟩ : VM).state ≠
      "online_reserved" ∧
    resolve_size 2048 "2048" 'm' = 2048 ∧
    vcpu_set ⟨"vm1", "online", some "hv1", true, true, 2, 2048, 16, []⟩ 2
        false false = ([], .error (.warning "CPU count is the same.")) ∧
    mem_set ⟨"vm1", "online", some "hv1", true, true, 2, 2048, 16, []⟩ "2048"
        false false = ([], .error (.warning "Memory size is the same.")) ∧
    disk_set ⟨"vm1", "online", some "hv1", true, true, 2, 2048, 16, []⟩ "16"
        false = ([], .error (.warning "Disk size is the same.")) :=
  ⟨by decide, by decide,
    (noop_same_value_warning
      ⟨"vm1", "online", some "hv1", true, true, 2, 2048, 16, []⟩ false false
      (Or.inr (by decide)) (by decide) (by decide)).1,
    (noop_same_value_warning
      ⟨"vm1", "online", some "hv1", true, true, 2, 2048, 16, []⟩ false false
      (Or.inr (by decide)) (by decide) (by decide)).2.1 "2048" (by decide),
    (noop_same_value_warning
      ⟨"vm1", "online", some "hv1", true, true, 2, 2048, 16, []⟩ false false
      (Or.inr (by decide)) (by decide) (by decide)).2.2 "16" (by decide)⟩

theorem mem_set_size_resolution_witness :
    strStarts "+512" '+' = true ∧
    resolve_size 2048 "+512" 'm' = 2048 + parse_size (strTail "+512") 'm' ∧
    strStarts "-512" '+' = false ∧ strStarts "-512" '-' = true ∧
    resolve_size 2048 "-512" 'm' = 2048 - parse_size (strTail "-512") 'm' ∧
    resolve_size 2048 "1024" 'm' = parse_size "1024" 'm' ∧
    Event.stopVmGraceful ∉
      (mem_set ⟨"vm1", "online", some "hv1", true, true, 2, 2048, 16, []⟩
        "+512" false false).1 :=
  ⟨by decide,
    (mem_set_size_resolution 2048 "+512" 'm').1 (by decide),
    by decide, by decide,
    (mem_set_size_resolution 2048 "-512" 'm').2.1 (by decide) (by decide),
    (mem_set_size_resolution 2048 "1024" 'm').2.2.1 (by decide) (by decide),
    ((mem_set_size_resolution 2048 "+512" 'm').2.2.2.1
      ⟨"vm1", "online", some "hv1", true, true, 2, 2048, 16, []⟩ "+512" false
      (Or.inr (by decide)) (by decide) (by decide)).1⟩

theorem vm_rename_offline_running_witness :
    (⟨"vm1", "online", some "hv1", true, true, 2, 2048, 16, []⟩ : VM).running =
      true ∧
    vm_rename ⟨"vm1", "online", some "hv1", true, true, 2, 2048, 16, []⟩
        "vm2" false =
      ([], .error (.notImplemented
        "Rename command only works with --offline at the moment.")) ∧
    vm_rename ⟨"vm1", "online", some "hv1", true, true, 2, 2048, 16, []⟩
        "vm2" true =
      ([.renameVm "vm2"],
        .ok ⟨"vm2", "online", some "hv1", true, true, 2, 2048, 16, []⟩) :=
  ⟨by decide,
    (vm_rename_offline_running
      ⟨"vm1", "online", some "hv1", true, true, 2, 2048, 16, []⟩ "vm2"
      (by decide) (by decide)).1,
    (vm_rename_offline_running
      ⟨"vm1", "online", some "hv1", true, true, 2, 2048, 16, []⟩ "vm2"
      (by decide) (by decide)).2.2 (by decide)⟩

theorem read_file_wildcard_witness :
    "a*b".data.contains '*' = true ∧
    Host.read_file (fun _ => "contents") "a*b" =
      ([], .error "No globbing supported") ∧
    Host.read_file (fun _ => "contents") "ab" =
      ([.get "ab"], .ok "contents") :=
  ⟨by decide,
    (read_file_wildcard (fun _ => "contents") "a*b").1 (by decide),
    (read_file_wildcard (fun _ => "contents") "ab").2 (by decide)⟩

theorem close_virtconns_keeps_cache_witness :
    (ConnCache.mk [(("kvm", "h1"), ⟨0, false⟩)] 1).conns.find?
        (fun p => decide (p.1 = ("kvm", "h1"))) =
      some (("kvm", "h1"), ⟨0, false⟩) ∧
    get_virtconn "h1" "kvm"
        (close_virtconns ⟨[(("kvm", "h1"), ⟨0, false⟩)], 1⟩) =
      (.ok ⟨0, true⟩, close_virtconns ⟨[(("kvm", "h1"), ⟨0, false⟩)], 1⟩) :=
  ⟨by decide,
    (close_virtconns_keeps_cache ⟨[(("kvm", "h1"), ⟨0, false⟩)], 1⟩ "h1"
      (("kvm", "h1"), ⟨0, false⟩) (by decide)).1⟩

theorem reserved_state_protection_witness :
    (⟨"vm1", "online_reserved", some "hv1", true, true, 2, 2048, 16, []⟩ :
        VM).state = "online_reserved" ∧
    vm_start ⟨"vm1", "online_reserved", some "hv1", true, true, 2, 2048, 16,
        []⟩ =
      ([], .error (.invalidState
        "Server \"vm1.ig.local\" is online_reserved.")) ∧
    (∃ r, (vm_restart
      ⟨"vm1", "online_reserved", some "hv1", true, true, 2, 2048, 16, []⟩
      false false).2 = .ok r) :=
  ⟨rfl,
    (reserved_state_protection
      ⟨"vm1", "online_reserved", some "hv1", true, true, 2, 2048, 16, []⟩
      "vm2" rfl (by decide) (by decide) (by decide)).1,
    (reserved_state_protection
      ⟨"vm1", "online_reserved", some "hv1", true, true, 2, 2048, 16, []⟩
      "vm2" rfl (by decide) (by decide) (by decide)).2.2.1⟩

end Igvm
